import Mathlib

/- Shallow embedding of src/with_gui.py, a front end over the Windows task
   scheduler.  External effects (subprocess invocations of schtasks, and the
   wall clock) are modelled explicitly: an Env record supplies the outcome of
   the query invocation, the time of day of the call, and the outcome of the
   creation invocation, should one be dispatched; schedule_task returns the
   list of dispatched command lines together with its result.  Python
   exceptions that the source code does not catch are modelled as Except
   errors. -/

/-- Result of a completed external process invocation: the data carried by
    subprocess.CompletedProcess (and by CalledProcessError on non-zero exit). -/
structure ProcResult where
  exitCode : Nat
  stdout : String
  stderr : String
deriving DecidableEq, Repr

/-- Outcome of attempting to spawn an external process: either the executable
    ran to completion, or the executable was missing and the spawn raised
    FileNotFoundError (the behaviour of subprocess.run on a missing program). -/
inductive SpawnOutcome where
  | completed (r : ProcResult)
  | execMissing
deriving DecidableEq, Repr

/-- Python exceptions that can escape the embedded functions uncaught. -/
inductive PyExn where
  | fileNotFoundError
  | indexError
deriving DecidableEq, Repr

/-- Environment of one schedule_task call: the outcome of the schtasks /query
    invocation, the wall-clock time of day of the call in whole seconds since
    midnight, and the outcome of the schtasks /create invocation, should one
    be dispatched. -/
structure Env where
  queryOutcome : SpawnOutcome
  nowSec : Nat
  createOutcome : SpawnOutcome
deriving DecidableEq, Repr

deriving instance DecidableEq for Except

/-- Python str.split(sep, 1) when sep occurs: the text before the first
    occurrence of sep paired with the text after it; none when sep is absent
    (so that indexing the second element would raise IndexError). -/
def splitFirst (sep : Char) : List Char → Option (List Char × List Char)
  | [] => none
  | c :: rest =>
    if c = sep then some ([], rest)
    else
      match splitFirst sep rest with
      | none => none
      | some p => some (c :: p.1, p.2)

/-- Python str.strip: drop leading and trailing whitespace. -/
def stripChars (cs : List Char) : List Char :=
  ((cs.dropWhile Char.isWhitespace).reverse.dropWhile Char.isWhitespace).reverse

/-- Python str.split(" ")[0]: the text before the first space (the whole text
    when no space occurs). -/
def beforeSpace (cs : List Char) : List Char :=
  cs.takeWhile (fun c => c != ' ')

/-- Python str.splitlines, for the common line boundaries LF, CRLF and CR. -/
def splitLinesAux : List Char → List Char → List (List Char)
  | [], acc => if acc.isEmpty then [] else [acc.reverse]
  | [c], acc =>
    if c = '\n' then [acc.reverse]
    else if c = '\r' then [acc.reverse]
    else [(c :: acc).reverse]
  | c :: c2 :: rest2, acc =>
    if c = '\n' then acc.reverse :: splitLinesAux (c2 :: rest2) []
    else if c = '\r' then
      if c2 = '\n' then acc.reverse :: splitLinesAux rest2 []
      else acc.reverse :: splitLinesAux (c2 :: rest2) []
    else splitLinesAux (c2 :: rest2) (c :: acc)

/-- Lines of a string, as Python str.splitlines produces them. -/
def pySplitLines (s : String) : List (List Char) :=
  splitLinesAux s.data []

/-- Dictionary of task details that get_existing_task_details extracts from
    the schtasks /query LIST output: the keys Task Name, Command Path,
    Interval and Duration, each present only when a matching line occurred. -/
structure TaskDetails where
  taskName : Option String
  commandPath : Option String
  interval : Option String
  duration : Option String
deriving DecidableEq, Repr

/-- Initial empty details dictionary. -/
def emptyDetails : TaskDetails := ⟨none, none, none, none⟩

/-- Python truthiness of the details dictionary: it holds at least one key. -/
def detailsNonempty (d : TaskDetails) : Bool :=
  d.taskName.isSome || d.commandPath.isSome || d.interval.isSome || d.duration.isSome

/-- One iteration of the line loop of get_existing_task_details
    (src/with_gui.py lines 38-46).  Lines starting with "Task Name:",
    "Task To Run:" and "Duration:" record the text after the first colon,
    stripped; a line starting with "Repeat: Every" records the first
    space-separated token of the text after the second space (the source's
    line.split(" ", 2)[2].strip().split(" ")[0]).  Indexing past the end of a
    Python split result raises IndexError. -/
def parseQueryLine (d : TaskDetails) (line : List Char) : Except PyExn TaskDetails :=
  if ("Task Name:".data).isPrefixOf line then
    match splitFirst ':' line with
    | none => .error .indexError
    | some p => .ok { d with taskName := some (String.mk (stripChars p.2)) }
  else if ("Task To Run:".data).isPrefixOf line then
    match splitFirst ':' line with
    | none => .error .indexError
    | some p => .ok { d with commandPath := some (String.mk (stripChars p.2)) }
  else if ("Repeat: Every".data).isPrefixOf line then
    match splitFirst ' ' line with
    | none => .error .indexError
    | some p =>
      match splitFirst ' ' p.2 with
      | none => .error .indexError
      | some q => .ok { d with interval := some (String.mk (beforeSpace (stripChars q.2))) }
  else if ("Duration:".data).isPrefixOf line then
    match splitFirst ':' line with
    | none => .error .indexError
    | some p => .ok { d with duration := some (String.mk (stripChars p.2)) }
  else .ok d

/-- Line loop of get_existing_task_details over all output lines. -/
def parseQueryLines : TaskDetails → List (List Char) → Except PyExn TaskDetails
  | d, [] => .ok d
  | d, l :: ls =>
    match parseQueryLine d l with
    | .error e => .error e
    | .ok d2 => parseQueryLines d2 ls

/-- Command line of the schtasks query invocation (src/with_gui.py line 33). -/
def queryCmd (task_name : String) : List String :=
  ["schtasks", "/query", "/tn", task_name, "/fo", "LIST", "/v"]

/-- Embedding of get_existing_task_details (src/with_gui.py lines 31-52).
    subprocess.run(..., check=True) raises CalledProcessError on a non-zero
    exit, which the source catches and turns into None; a missing executable
    raises FileNotFoundError, which the source does not catch; an IndexError
    from the line loop is likewise uncaught. -/
def get_existing_task_details (queryOutcome : SpawnOutcome) :
    Except PyExn (Option TaskDetails) :=
  match queryOutcome with
  | .execMissing => .error .fileNotFoundError
  | .completed r =>
    if r.exitCode = 0 then
      match parseQueryLines emptyDetails (pySplitLines r.stdout) with
      | .error e => .error e
      | .ok d => if detailsNonempty d then .ok (some d) else .ok none
    else .ok none

/-- Test that a query-output line starts with one of the four recognized keys. -/
def recognizedLine (line : List Char) : Bool :=
  ("Task Name:".data).isPrefixOf line || ("Task To Run:".data).isPrefixOf line ||
    ("Repeat: Every".data).isPrefixOf line || ("Duration:".data).isPrefixOf line

/-- Python timedelta, stored as a whole number of microseconds. -/
structure Timedelta where
  microseconds : Int
deriving DecidableEq, Repr

/-- Value returned by the external ISO-8601 duration parser: either a plain
    wall-clock span (a timedelta), or a calendar duration whose years or
    months value is non-zero, which has no fixed wall-clock span. -/
inductive LibDuration where
  | delta (td : Timedelta)
  | calendar
deriving DecidableEq, Repr

/-- Longest run of leading decimal digits of a character list, paired with
    the remainder. -/
def takeDigits : List Char → List Char × List Char
  | [] => ([], [])
  | c :: rest =>
    if c.isDigit then
      let p := takeDigits rest
      (c :: p.1, p.2)
    else ([], c :: rest)

/-- Numeric value of a list of decimal digit characters. -/
def digitsToNat (ds : List Char) : Nat :=
  ds.foldl (fun x c => 10 * x + (c.toNat - 48)) 0

/-- Parse of one optional duration component "<digits><unit>": when the input
    starts with one or more digits immediately followed by the unit letter,
    the component's value and the remainder; otherwise no value and the input
    unchanged. -/
def parseNumComp (u : Char) (cs : List Char) : Option Nat × List Char :=
  let p := takeDigits cs
  if p.1.isEmpty then (none, cs)
  else
    match p.2 with
    | [] => (none, cs)
    | c :: rest2 => if c = u then (some (digitsToNat p.1), rest2) else (none, cs)

/-- Optional leading sign of a duration string, as a factor. -/
def signSplit (cs : List Char) : Int × List Char :=
  match cs with
  | [] => (1, [])
  | c :: r => if c = '-' then (-1, r) else if c = '+' then (1, r) else (1, c :: r)

/-- Modelled from the spec: the third-party ISO-8601 duration parser
    (isodate.parse_duration) called by parse_iso_duration is not part of
    src/.  Following the spec, it accepts ISO-8601 duration syntax — an
    optional sign, the letter P, optional integer-valued components nY nM nW
    nD in that order, then optionally the letter T with optional integer
    components nH nM nS in that order, with at least one character after P
    and nothing left over — and yields a wall-clock timedelta unless the
    years or months value is non-zero, in which case the result is a
    calendar duration that no timedelta can represent.  Every other string
    fails to parse. -/
def parse_duration_lib (s : String) : Option LibDuration :=
  let sp := signSplit s.data
  match sp.2 with
  | [] => none
  | c :: rest =>
    if c = 'P' then
      if rest.isEmpty then none
      else
        let y := parseNumComp 'Y' rest
        let mo := parseNumComp 'M' y.2
        let w := parseNumComp 'W' mo.2
        let d := parseNumComp 'D' w.2
        let tpart : Option (Option Nat × Option Nat × Option Nat) :=
          match d.2 with
          | [] => some (none, none, none)
          | t :: trest =>
            if t = 'T' then
              let h := parseNumComp 'H' trest
              let mi := parseNumComp 'M' h.2
              let se := parseNumComp 'S' mi.2
              if se.2.isEmpty then some (h.1, mi.1, se.1) else none
            else none
        match tpart with
        | none => none
        | some hms =>
          if y.1.getD 0 ≠ 0 ∨ mo.1.getD 0 ≠ 0 then some .calendar
          else
            let secs : Int :=
              (w.1.getD 0 : Int) * 604800 + (d.1.getD 0 : Int) * 86400 +
                (hms.1.getD 0 : Int) * 3600 + (hms.2.1.getD 0 : Int) * 60 +
                (hms.2.2.getD 0 : Int)
            some (.delta ⟨sp.1 * secs * 1000000⟩)
    else none

/-- Embedding of parse_iso_duration (src/with_gui.py lines 14-21): a failed
    library parse and a non-timedelta library result both become a ValueError
    whose message wraps the inner error as "Error parsing duration: ...";
    the error value here is that message. -/
def parse_iso_duration (duration_str : String) : Except String Timedelta :=
  match parse_duration_lib duration_str with
  | some (.delta td) => .ok td
  | some .calendar => .error "Error parsing duration: Invalid duration format."
  | none =>
    .error ("Error parsing duration: Unable to parse duration string '" ++
      duration_str ++ "'")

/-- Python f"{x:02}" for an int: zero-padded to a minimum width of 2, the
    sign counting toward the width. -/
def pyFmt02 (x : Int) : String :=
  if 0 ≤ x ∧ x < 10 then "0" ++ toString x else toString x

/-- Embedding of format_duration_for_schtasks (src/with_gui.py lines 24-28):
    total seconds truncated toward zero (Python int of a float), then Python
    floor division and nonnegative modulo, rendered as two f"{v:02}" fields
    joined by a colon. -/
def format_duration_for_schtasks (duration : Timedelta) : String :=
  let total_seconds : Int := Int.tdiv duration.microseconds 1000000
  let hours : Int := Int.fdiv total_seconds 3600
  let minutes : Int := Int.fdiv (Int.fmod total_seconds 3600) 60
  pyFmt02 hours ++ ":" ++ pyFmt02 minutes

/-- Two-digit zero-padded rendering of a value below 100, as strftime uses
    for hours and minutes. -/
def twoDigits (n : Nat) : String := if n < 10 then "0" ++ toString n else toString n

/-- Rendering of a minute of the day in 24-hour HH:MM form. -/
def renderHHMM (minuteOfDay : Nat) : String :=
  twoDigits (minuteOfDay / 60) ++ ":" ++ twoDigits (minuteOfDay % 60)

/-- Minute of the day shown by
    (datetime.datetime.now() + datetime.timedelta(minutes=1)).strftime("%H:%M")
    when the call happens nowSec seconds after midnight: strftime keeps only
    the hour and minute, so the rendered minute is the call's minute plus
    one, wrapping at midnight. -/
def startMinuteOfDay (nowSec : Nat) : Nat := (nowSec / 60 + 1) % 1440

/-- Seconds from the call's wall-clock time to the next occurrence of the
    rendered /st time (that is, of the clock point HH:MM:00). -/
def startDelaySeconds (nowSec : Nat) : Nat :=
  (startMinuteOfDay nowSec * 60 + 86400 - nowSec) % 86400

/-- Window asserted by the claim: the start time falls between 1 and 2
    minutes after the call's wall-clock time. -/
def claimedStartWindow (delay : Nat) : Prop := 60 ≤ delay ∧ delay ≤ 120

/-- Message returned when the task already exists (src/with_gui.py lines
    59-63): each field comes from the existing snapshot when recorded, with
    the caller-supplied value as the dict.get fallback. -/
def alreadyExistsMessage (task_name command_path : String) (interval : Int)
    (duration_str : String) (d : TaskDetails) : String :=
  "Task '" ++ task_name ++ "' already exists with the following details:\n" ++
    "Task Name: " ++ d.taskName.getD task_name ++ "\n" ++
    "Command Path: " ++ d.commandPath.getD command_path ++ "\n" ++
    "Interval (minutes): " ++ d.interval.getD (toString interval) ++ "\n" ++
    "Duration (ISO 8601 format): " ++ d.duration.getD duration_str

/-- Command line of the schtasks creation invocation (src/with_gui.py lines
    70-74). -/
def buildCreateCmd (task_name command_path : String) (interval : Int)
    (start_time du_value : String) : List String :=
  ["schtasks", "/create", "/tn", task_name, "/sc", "DAILY", "/tr", command_path,
    "/st", start_time, "/ri", toString interval, "/du", du_value, "/f"]

/-- Trace of one schedule_task call: the subprocess command lines dispatched,
    in order, and the returned message or the escaped exception. -/
structure RunTrace where
  invocations : List (List String)
  result : Except PyExn String
deriving Repr

/-- Embedding of schedule_task (src/with_gui.py lines 55-81).  The query runs
    first, outside the try block, so its uncaught exceptions escape.  An
    existing task short-circuits into the already-exists report.  Otherwise
    the duration is parsed (a ValueError is caught and its text returned),
    the start time and /du value are computed, and the creation command is
    dispatched: zero exit yields the success message with the tool's stdout,
    CalledProcessError yields the failure message with the tool's stderr, and
    a missing executable raises FileNotFoundError, which no except clause
    matches. -/
def schedule_task (env : Env) (task_name command_path : String) (interval : Int)
    (duration_str : String) : RunTrace :=
  match get_existing_task_details env.queryOutcome with
  | .error e => { invocations := [queryCmd task_name], result := .error e }
  | .ok (some existing_task) =>
    { invocations := [queryCmd task_name],
      result := .ok (alreadyExistsMessage task_name command_path interval
        duration_str existing_task) }
  | .ok none =>
    match parse_iso_duration duration_str with
    | .error e => { invocations := [queryCmd task_name], result := .ok e }
    | .ok duration_td =>
      let du_value := format_duration_for_schtasks duration_td
      let start_time := renderHHMM (startMinuteOfDay env.nowSec)
      let cmd := buildCreateCmd task_name command_path interval start_time du_value
      match env.createOutcome with
      | .execMissing =>
        { invocations := [queryCmd task_name, cmd], result := .error .fileNotFoundError }
      | .completed r =>
        if r.exitCode = 0 then
          { invocations := [queryCmd task_name, cmd],
            result := .ok ("Task '" ++ task_name ++ "' scheduled successfully.\n" ++
              r.stdout) }
        else
          { invocations := [queryCmd task_name, cmd],
            result := .ok ("Error scheduling task '" ++ task_name ++ "':\n" ++
              r.stderr) }

/-- Test that a dispatched command line is a schtasks creation command. -/
def isCreateCmd (c : List String) : Bool :=
  match c with
  | _ :: a :: _ => a = "/create"
  | _ => false

/-- Creation commands dispatched by one schedule_task call. -/
def createInvocations (t : RunTrace) : List (List String) :=
  t.invocations.filter isCreateCmd

/-- Bool test that t occurs as a prefix of l. -/
def listHasPref : List Char → List Char → Bool
  | [], _ => true
  | _ :: _, [] => false
  | c :: t, x :: l => c = x && listHasPref t l

/-- Bool test that t occurs as a contiguous run inside l. -/
def listHasSub (t : List Char) : List Char → Bool
  | [] => t.isEmpty
  | x :: l => listHasPref t (x :: l) || listHasSub t l

/-- Containment of one string in another, as Python's in operator. -/
def strContains (t s : String) : Bool := listHasSub t.data s.data

/-- Literal success notice of the success message. -/
def successNotice : String := "scheduled successfully"

/-- Literal failure notice of the failure message. -/
def failureNotice : String := "Error scheduling task"

/-- Decimal digit characters of a natural number, most significant first. -/
def natDigits (n : Nat) : List Char :=
  if n < 10 then [Nat.digitChar n]
  else natDigits (n / 10) ++ [Nat.digitChar (n % 10)]
decreasing_by exact Nat.div_lt_self (by omega) (by omega)

/-- Concrete environment: the query tool ran at 10:30:45, found the task and
    printed a LIST report for it, and creation would succeed. -/
def envC1 : Env :=
  { queryOutcome := .completed ⟨0,
      "Task Name: Backup\nTask To Run: C:\\old.bat\nRepeat: Every 30 Minute(s)\nDuration: 03:00\n",
      ""⟩,
    nowSec := 37845,
    createOutcome := .completed ⟨0, "SUCCESS: created.", ""⟩ }

/-- Concrete environment: the query executable is missing entirely. -/
def envMissingTool : Env :=
  { queryOutcome := .execMissing, nowSec := 37845,
    createOutcome := .completed ⟨0, "SUCCESS: created.", ""⟩ }

/-- Concrete environment at 10:30:45: the task is absent (the query exits 1)
    and the creation invocation exits 0. -/
def envAbsentOk : Env :=
  { queryOutcome := .completed ⟨1, "", "ERROR: The system cannot find the file specified."⟩,
    nowSec := 37845,
    createOutcome := .completed ⟨0, "SUCCESS: the task has been created.", ""⟩ }

/-- Concrete environment at 10:30:45: the task is absent and the creation
    invocation exits 1 with text on stderr. -/
def envAbsentFail : Env :=
  { queryOutcome := .completed ⟨1, "", ""⟩, nowSec := 37845,
    createOutcome := .completed ⟨1, "", "ERROR: Access is denied."⟩ }

/-- Concrete environment: the query exits 0 but its output holds none of the
    four recognized keys. -/
def envUnrecognized : Env :=
  { queryOutcome := .completed ⟨0,
      "INFO: There are no scheduled tasks presently available at your access level.\n", ""⟩,
    nowSec := 37845,
    createOutcome := .completed ⟨0, "SUCCESS: the task has been created.", ""⟩ }

/-- Auxiliary: the query command is not a creation command. -/
theorem isCreateCmd_queryCmd (n : String) : isCreateCmd (queryCmd n) = false := rfl

/-- C1: when the scheduler lookup reports the task as already present, with a
    recorded command path, interval and duration in the snapshot,
    schedule_task dispatches no creation command and returns the report built
    from the snapshot's recorded fields; the caller-supplied command path,
    interval and duration have no influence on the result. -/
theorem claim1_already_exists_report (e : Env) (n cp cp2 du du2 : String)
    (i i2 : Int) (d : TaskDetails) (pcp piv pdu : String)
    (hq : get_existing_task_details e.queryOutcome = .ok (some d))
    (hcp : d.commandPath = some pcp) (hiv : d.interval = some piv)
    (hdu : d.duration = some pdu) :
    createInvocations (schedule_task e n cp i du) = [] ∧
    (schedule_task e n cp i du).result = .ok
      ("Task '" ++ n ++ "' already exists with the following details:\n" ++
        "Task Name: " ++ d.taskName.getD n ++ "\n" ++
        "Command Path: " ++ pcp ++ "\n" ++
        "Interval (minutes): " ++ piv ++ "\n" ++
        "Duration (ISO 8601 format): " ++ pdu) ∧
    (schedule_task e n cp i du).result = (schedule_task e n cp2 i2 du2).result := by
  refine ⟨?_, ?_, ?_⟩ <;>
    simp [schedule_task, hq, createInvocations, alreadyExistsMessage,
      hcp, hiv, hdu, isCreateCmd_queryCmd, List.filter]

/-- Witness for C1 at a concrete query report. -/
theorem claim1_already_exists_report_witness :
    createInvocations (schedule_task envC1 "Backup" "C:\\new.bat" 15 "PT1H") = [] ∧
    (schedule_task envC1 "Backup" "C:\\new.bat" 15 "PT1H").result = .ok
      ("Task '" ++ "Backup" ++ "' already exists with the following details:\n" ++
        "Task Name: " ++ "Backup" ++ "\n" ++
        "Command Path: " ++ "C:\\old.bat" ++ "\n" ++
        "Interval (minutes): " ++ "30" ++ "\n" ++
        "Duration (ISO 8601 format): " ++ "03:00") ∧
    (schedule_task envC1 "Backup" "C:\\new.bat" 15 "PT1H").result =
      (schedule_task envC1 "Backup" "C:\\other.bat" 99 "PT9H").result :=
  claim1_already_exists_report envC1 "Backup" "C:\\new.bat" "C:\\other.bat"
    "PT1H" "PT9H" 15 99
    ⟨some "Backup", some "C:\\old.bat", some "30", some "03:00"⟩
    "C:\\old.bat" "30" "03:00" rfl rfl rfl rfl

/-- C2 counterexample: the claim says that the external query tool being
    missing entirely makes lookup report the task as absent; in fact lookup
    then raises an uncaught FileNotFoundError, and schedule_task produces no
    status message at all — a distinct signal of infrastructure failure. -/
theorem claim2_counterexample :
    get_existing_task_details envMissingTool.queryOutcome ≠ .ok none ∧
    get_existing_task_details envMissingTool.queryOutcome =
      .error .fileNotFoundError ∧
    (schedule_task envMissingTool "Backup" "C:\\b.bat" 30 "PT3H").result =
      .error .fileNotFoundError :=
  ⟨by decide, rfl, rfl⟩

/-- C2 amended: any non-zero exit of the external query tool makes lookup
    report the task as absent, with no distinct signal versus genuine
    absence; but the tool being missing entirely is not handled this way: it
    escalates as an uncaught FileNotFoundError instead of reporting absence. -/
theorem claim2_lookup_failure_as_absent (r : ProcResult) (hr : r.exitCode ≠ 0) :
    get_existing_task_details (.completed r) = .ok none ∧
    get_existing_task_details SpawnOutcome.execMissing =
      .error .fileNotFoundError := by
  exact ⟨by simp [get_existing_task_details, hr], rfl⟩

/-- Witness for the amended C2 at a concrete failed query. -/
theorem claim2_lookup_failure_as_absent_witness :
    get_existing_task_details (.completed ⟨1, "", "tool failure"⟩) = .ok none ∧
    get_existing_task_details SpawnOutcome.execMissing =
      .error .fileNotFoundError :=
  claim2_lookup_failure_as_absent ⟨1, "", "tool failure"⟩ (by decide)

/-- C8: when the task is absent and the duration string fails to parse,
    schedule_task returns the parse-error text itself as its status message
    (an ordinary ok result, not an escalated error) and dispatches no
    creation command. -/
theorem claim8_parse_error_message (e : Env) (n cp du msg : String) (i : Int)
    (hq : get_existing_task_details e.queryOutcome = .ok none)
    (hp : parse_iso_duration du = .error msg) :
    (schedule_task e n cp i du).result = .ok msg ∧
    createInvocations (schedule_task e n cp i du) = [] := by
  constructor <;>
    simp [schedule_task, hq, hp, createInvocations, isCreateCmd_queryCmd, List.filter]

/-- Witness for C8 on the non-ISO text "3 hours". -/
theorem claim8_parse_error_message_witness :
    (schedule_task envAbsentOk "Backup" "C:\\b.bat" 30 "3 hours").result =
      .ok "Error parsing duration: Unable to parse duration string '3 hours'" ∧
    createInvocations (schedule_task envAbsentOk "Backup" "C:\\b.bat" 30 "3 hours") = [] :=
  claim8_parse_error_message envAbsentOk "Backup" "C:\\b.bat" "3 hours"
    "Error parsing duration: Unable to parse duration string '3 hours'" 30 rfl rfl

/-- Auxiliary: the built creation command is a creation command. -/
theorem isCreateCmd_buildCreateCmd (n cp : String) (i : Int) (st du : String) :
    isCreateCmd (buildCreateCmd n cp i st du) = true := rfl

/-- Auxiliary: when the lookup reports absence and the duration parses,
    schedule_task dispatches exactly the one creation command built from the
    caller's fields, the rendered start time and the formatted duration. -/
theorem createInvocations_dispatch (e : Env) (n cp du : String) (i : Int)
    (td : Timedelta)
    (hq : get_existing_task_details e.queryOutcome = .ok none)
    (hp : parse_iso_duration du = .ok td) :
    createInvocations (schedule_task e n cp i du) =
      [buildCreateCmd n cp i (renderHHMM (startMinuteOfDay e.nowSec))
        (format_duration_for_schtasks td)] := by
  unfold schedule_task
  rw [hq, hp]
  cases e.createOutcome with
  | execMissing =>
    simp [createInvocations, List.filter, isCreateCmd_queryCmd, isCreateCmd_buildCreateCmd]
  | completed r =>
    by_cases h0 : r.exitCode = 0 <;>
      simp [h0, createInvocations, List.filter, isCreateCmd_queryCmd,
        isCreateCmd_buildCreateCmd]

/-- Auxiliary: an unrecognized line leaves the details dictionary unchanged. -/
theorem parseQueryLine_unrecognized (d : TaskDetails) (l : List Char)
    (h : recognizedLine l = false) : parseQueryLine d l = .ok d := by
  simp only [recognizedLine, Bool.or_eq_false_iff] at h
  obtain ⟨⟨⟨h1, h2⟩, h3⟩, h4⟩ := h
  simp [parseQueryLine, h1, h2, h3, h4]

/-- Auxiliary: a query output with no recognized line leaves the details
    dictionary unchanged through the whole loop. -/
theorem parseQueryLines_unrecognized (ls : List (List Char)) :
    ∀ d : TaskDetails, (∀ l ∈ ls, recognizedLine l = false) →
      parseQueryLines d ls = .ok d := by
  induction ls with
  | nil => intro d _; rfl
  | cons l ls ih =>
    intro d hl
    have h1 := parseQueryLine_unrecognized d l (hl l (by simp))
    simp only [parseQueryLines, h1]
    exact ih d (fun x hx => hl x (by simp [hx]))

/-- C9: when the query invocation exits zero but its output holds no line
    starting with any of the four recognized keys, lookup reports the task as
    absent, and schedule_task therefore treats the task as non-existent and
    proceeds to dispatch the creation command once the duration parses. -/
theorem claim9_unrecognized_output_absent (r : ProcResult)
    (h0 : r.exitCode = 0)
    (hl : ∀ l ∈ pySplitLines r.stdout, recognizedLine l = false) :
    get_existing_task_details (.completed r) = .ok none ∧
    ∀ (e : Env) (n cp du : String) (i : Int) (td : Timedelta),
      e.queryOutcome = .completed r → parse_iso_duration du = .ok td →
      createInvocations (schedule_task e n cp i du) =
        [buildCreateCmd n cp i (renderHHMM (startMinuteOfDay e.nowSec))
          (format_duration_for_schtasks td)] := by
  have habs : get_existing_task_details (.completed r) = .ok none := by
    simp only [get_existing_task_details]
    rw [if_pos h0, parseQueryLines_unrecognized (pySplitLines r.stdout) emptyDetails hl]
    rfl
  refine ⟨habs, fun e n cp du i td hq hp => ?_⟩
  exact createInvocations_dispatch e n cp du i td (by rw [hq]; exact habs) hp

/-- Witness for C9: a zero-exit query whose output is a single INFO line. -/
theorem claim9_unrecognized_output_absent_witness :
    get_existing_task_details (.completed
      ⟨0, "INFO: There are no scheduled tasks presently available at your access level.\n",
        ""⟩) = .ok none :=
  (claim9_unrecognized_output_absent
    ⟨0, "INFO: There are no scheduled tasks presently available at your access level.\n", ""⟩
    rfl (by decide)).1

/-- C5: parse_iso_duration fails with a parse error exactly when the modelled
    ISO-8601 library parse rejects the text or yields a calendar duration
    that no wall-clock span can represent; the non-ISO text "3 hours" is
    rejected with the descriptive wrapped message, never parsed successfully,
    while "PT3H" parses. -/
theorem claim5_parse_duration_errors :
    (∀ s : String,
      (∃ msg, parse_iso_duration s = .error msg) ↔
        (parse_duration_lib s = none ∨ parse_duration_lib s = some .calendar)) ∧
    parse_iso_duration "3 hours" =
      .error "Error parsing duration: Unable to parse duration string '3 hours'" ∧
    parse_iso_duration "PT3H" = .ok ⟨10800000000⟩ := by
  refine ⟨fun s => ?_, by decide, by decide⟩
  unfold parse_iso_duration
  cases h : parse_duration_lib s with
  | none => simp
  | some ld => cases ld with
    | delta td => simp
    | calendar => simp

/-- C6: the dispatched creation command passes exactly the schtasks creation
    arguments, in order: the task name after /tn, daily recurrence after /sc,
    the command path after /tr, the rendered start time after /st, the
    interval in minutes after /ri, the formatted duration after /du, and the
    force flag /f. -/
theorem claim6_create_command_args (e : Env) (n cp du : String) (i : Int)
    (td : Timedelta)
    (hq : get_existing_task_details e.queryOutcome = .ok none)
    (hp : parse_iso_duration du = .ok td) :
    createInvocations (schedule_task e n cp i du) =
      [["schtasks", "/create", "/tn", n, "/sc", "DAILY", "/tr", cp,
        "/st", renderHHMM (startMinuteOfDay e.nowSec), "/ri", toString i,
        "/du", format_duration_for_schtasks td, "/f"]] :=
  createInvocations_dispatch e n cp du i td hq hp

/-- Witness for C6: the end-to-end scenario create("Backup",
    "C:\\scripts\\backup.bat", 30, "PT3H") at 10:30:45 with no existing task
    dispatches /ri 30 and /du 03:00 with the start time 10:31. -/
theorem claim6_create_command_args_witness :
    createInvocations
        (schedule_task envAbsentOk "Backup" "C:\\scripts\\backup.bat" 30 "PT3H") =
      [["schtasks", "/create", "/tn", "Backup", "/sc", "DAILY",
        "/tr", "C:\\scripts\\backup.bat", "/st", "10:31", "/ri", "30",
        "/du", "03:00", "/f"]] :=
  claim6_create_command_args envAbsentOk "Backup" "C:\\scripts\\backup.bat" "PT3H" 30
    ⟨10800000000⟩ rfl rfl

/-- Auxiliary: the delay between the call and the next occurrence of the
    rendered start time is sixty seconds minus the call's seconds-in-minute. -/
theorem startDelaySeconds_eq (n : Nat) (h : n < 86400) :
    startDelaySeconds n = 60 - n % 60 := by
  unfold startDelaySeconds startMinuteOfDay
  omega

/-- C3 counterexample: at wall-clock time 10:30:45 (37845 seconds after
    midnight) with the task absent and the duration "PT3H", the dispatched
    start time is "10:31", whose clock point 10:31:00 is only 15 seconds
    after the call — not between 1 and 2 minutes after it as the claim
    asserts. -/
theorem claim3_counterexample :
    createInvocations (schedule_task envAbsentOk "Backup" "C:\\b.bat" 30 "PT3H") =
      [buildCreateCmd "Backup" "C:\\b.bat" 30 "10:31" "03:00"] ∧
    envAbsentOk.nowSec = 37845 ∧
    startDelaySeconds envAbsentOk.nowSec = 15 ∧
    ¬ claimedStartWindow (startDelaySeconds envAbsentOk.nowSec) :=
  ⟨rfl, rfl, by decide, by unfold claimedStartWindow; decide⟩

/-- C3 amended: with the task absent and a parsable duration, schedule_task
    dispatches the creation command exactly once, with a start time rendered
    in 24-hour HH:MM form equal to the call's minute plus one; the clock
    point of that start time falls at least 1 second and at most 60 seconds
    after the call's wall-clock time, not between 1 and 2 minutes after it. -/
theorem claim3_start_time (e : Env) (n cp du : String) (i : Int) (td : Timedelta)
    (hnow : e.nowSec < 86400)
    (hq : get_existing_task_details e.queryOutcome = .ok none)
    (hp : parse_iso_duration du = .ok td) :
    createInvocations (schedule_task e n cp i du) =
      [buildCreateCmd n cp i (renderHHMM (startMinuteOfDay e.nowSec))
        (format_duration_for_schtasks td)] ∧
    1 ≤ startDelaySeconds e.nowSec ∧ startDelaySeconds e.nowSec ≤ 60 := by
  refine ⟨createInvocations_dispatch e n cp du i td hq hp, ?_, ?_⟩ <;>
    (rw [startDelaySeconds_eq e.nowSec hnow]; omega)

/-- Witness for the amended C3 at the concrete environment of 10:30:45. -/
theorem claim3_start_time_witness :
    createInvocations (schedule_task envAbsentOk "Backup" "C:\\b.bat" 30 "PT3H") =
      [buildCreateCmd "Backup" "C:\\b.bat" 30
        (renderHHMM (startMinuteOfDay envAbsentOk.nowSec))
        (format_duration_for_schtasks ⟨10800000000⟩)] ∧
    1 ≤ startDelaySeconds envAbsentOk.nowSec ∧ startDelaySeconds envAbsentOk.nowSec ≤ 60 :=
  claim3_start_time envAbsentOk "Backup" "C:\\b.bat" "PT3H" 30 ⟨10800000000⟩
    (by decide) rfl rfl

/-- C10: a duration that parses to a zero or negative wall-clock span is
    accepted — "PT0S" parses to the zero span and formats as "00:00", the
    negative "-PT1H" parses to minus one hour and formats as "-1:00", whose
    hours field is not a zero-padded two-digit string — and schedule_task
    dispatches the creation command with the correspondingly formatted /du
    value for every such duration: no positivity check is enforced anywhere. -/
theorem claim10_no_positivity_check :
    parse_iso_duration "PT0S" = .ok ⟨0⟩ ∧
    format_duration_for_schtasks ⟨0⟩ = "00:00" ∧
    parse_iso_duration "-PT1H" = .ok ⟨-3600000000⟩ ∧
    format_duration_for_schtasks ⟨-3600000000⟩ = "-1:00" ∧
    ∀ (e : Env) (n cp du : String) (i : Int) (td : Timedelta),
      get_existing_task_details e.queryOutcome = .ok none →
      parse_iso_duration du = .ok td → td.microseconds ≤ 0 →
      createInvocations (schedule_task e n cp i du) =
        [buildCreateCmd n cp i (renderHHMM (startMinuteOfDay e.nowSec))
          (format_duration_for_schtasks td)] := by
  refine ⟨by decide, by decide, by decide, by decide, fun e n cp du i td hq hp _ => ?_⟩
  exact createInvocations_dispatch e n cp du i td hq hp

/-- Witness for C10: the zero-span duration "PT0S" is dispatched with /du
    00:00. -/
theorem claim10_no_positivity_check_witness :
    createInvocations (schedule_task envAbsentFail "Nightly" "C:\\n.bat" 5 "PT0S") =
      [buildCreateCmd "Nightly" "C:\\n.bat" 5
        (renderHHMM (startMinuteOfDay envAbsentFail.nowSec))
        (format_duration_for_schtasks ⟨0⟩)] :=
  claim10_no_positivity_check.2.2.2.2 envAbsentFail "Nightly" "C:\\n.bat" "PT0S" 5
    ⟨0⟩ rfl rfl (by decide)

/-- Auxiliary: the data of a constructed string is its character list. -/
theorem data_mk (l : List Char) : (String.mk l).data = l := rfl

/-- Auxiliary: every character of natDigits is a decimal digit. -/
theorem natDigits_all_digit (n : Nat) : ∀ c ∈ natDigits n, c.isDigit = true := by
  induction n using Nat.strong_induction_on with
  | _ n ih =>
    rw [natDigits]
    by_cases h : n < 10
    · simp only [if_pos h, List.mem_singleton]
      rintro c rfl
      interval_cases n <;> decide
    · simp only [if_neg h, List.mem_append, List.mem_singleton]
      rintro c (hc | rfl)
      · exact ih (n / 10) (Nat.div_lt_self (by omega) (by omega)) c hc
      · have h9 : n % 10 < 10 := Nat.mod_lt _ (by omega)
        interval_cases hh : n % 10 <;> simp_all <;> decide

/-- Auxiliary: natDigits is never empty. -/
theorem natDigits_ne_nil (n : Nat) : natDigits n ≠ [] := by
  rw [natDigits]
  by_cases h : n < 10 <;> simp [h]

/-- Auxiliary: folding the decimal digits of n onto an accumulator. -/
theorem digitsToNatFrom_natDigits (n : Nat) :
    ∀ a : Nat, List.foldl (fun x c => 10 * x + (c.toNat - 48)) a (natDigits n) =
      a * 10 ^ (natDigits n).length + n := by
  induction n using Nat.strong_induction_on with
  | _ n ih =>
    intro a
    rw [natDigits]
    by_cases h : n < 10
    · simp only [if_pos h, List.foldl_cons, List.foldl_nil, List.length_singleton]
      have : (Nat.digitChar n).toNat = 48 + n := by interval_cases n <;> decide
      omega
    · simp only [if_neg h, List.foldl_append, List.foldl_cons, List.foldl_nil,
        List.length_append, List.length_singleton]
      rw [ih (n / 10) (Nat.div_lt_self (by omega) (by omega)) a]
      have h9 : (Nat.digitChar (n % 10)).toNat = 48 + n % 10 := by
        have : n % 10 < 10 := Nat.mod_lt _ (by omega)
        interval_cases hh : n % 10 <;> decide
      rw [pow_succ, ← mul_assoc]
      omega

/-- Auxiliary: the numeric value of the rendered digits of n is n. -/
theorem digitsToNat_natDigits (n : Nat) : digitsToNat (natDigits n) = n := by
  unfold digitsToNat
  rw [digitsToNatFrom_natDigits]
  omega

/-- Auxiliary: takeDigits consumes exactly a run of digits that stops at a
    non-digit character. -/
theorem takeDigits_append (ds : List Char) (hds : ∀ c ∈ ds, c.isDigit = true) :
    ∀ rest : List Char, (∀ c, rest.head? = some c → c.isDigit = false) →
      takeDigits (ds ++ rest) = (ds, rest) := by
  induction ds with
  | nil =>
    intro rest hrest
    cases rest with
    | nil => rfl
    | cons c rs =>
      have hc := hrest c rfl
      simp [takeDigits, hc]
  | cons d ds ih =>
    intro rest hrest
    have hd : d.isDigit = true := hds d (by simp)
    simp only [List.cons_append, takeDigits, hd, if_true, List.append_eq]
    rw [ih (fun c hc => hds c (by simp [hc])) rest hrest]

/-- Auxiliary: parseNumComp skips when the input starts with a non-digit. -/
theorem parseNumComp_skip (u c : Char) (l : List Char) (hc : c.isDigit = false) :
    parseNumComp u (c :: l) = (none, c :: l) := by
  simp [parseNumComp, takeDigits, hc]

/-- Auxiliary: parseNumComp reads rendered digits followed by their unit. -/
theorem parseNumComp_reads (u : Char) (hu : u.isDigit = false) (n : Nat)
    (r : List Char) :
    parseNumComp u (natDigits n ++ u :: r) = (some n, r) := by
  have ht := takeDigits_append (natDigits n) (natDigits_all_digit n) (u :: r)
    (fun c hc => by
      simp only [List.head?_cons, Option.some.injEq] at hc
      rwa [← hc])
  have hne : (natDigits n).isEmpty = false := by
    cases hd : natDigits n with
    | nil => exact absurd hd (natDigits_ne_nil n)
    | cons a l => rfl
  simp [parseNumComp, ht, hne, digitsToNat_natDigits]

/-- Auxiliary: the modelled library parse of "PT{h}H{m}M", with both numbers
    rendered in decimal, is the wall-clock span of h hours and m minutes. -/
theorem parse_duration_lib_hm (h m : Nat) :
    parse_duration_lib (String.mk
        ('P' :: 'T' :: (natDigits h ++ 'H' :: (natDigits m ++ ['M'])))) =
      some (.delta ⟨((3600 * h + 60 * m : Nat) : Int) * 1000000⟩) := by
  have hsign : signSplit ('P' :: 'T' :: (natDigits h ++ 'H' :: (natDigits m ++ ['M']))) =
      (1, 'P' :: 'T' :: (natDigits h ++ 'H' :: (natDigits m ++ ['M']))) := rfl
  have hY := parseNumComp_skip 'Y' 'T' (natDigits h ++ 'H' :: (natDigits m ++ ['M']))
    (by decide)
  have hMo := parseNumComp_skip 'M' 'T' (natDigits h ++ 'H' :: (natDigits m ++ ['M']))
    (by decide)
  have hW := parseNumComp_skip 'W' 'T' (natDigits h ++ 'H' :: (natDigits m ++ ['M']))
    (by decide)
  have hD := parseNumComp_skip 'D' 'T' (natDigits h ++ 'H' :: (natDigits m ++ ['M']))
    (by decide)
  have hH := parseNumComp_reads 'H' (by decide) h (natDigits m ++ ['M'])
  have hMi := parseNumComp_reads 'M' (by decide) m []
  have hS : parseNumComp 'S' [] = (none, []) := rfl
  simp only [parse_duration_lib, data_mk, hsign, hY, hMo, hW, hD, hH, hMi, hS]
  norm_num
  ring

/-- Auxiliary: formatting a whole nonnegative span of h hours and m minutes
    with m < 60 yields the two zero-padded fields of h and m. -/
theorem format_hm (h m : Nat) (hm : m < 60) :
    format_duration_for_schtasks ⟨((3600 * h + 60 * m : Nat) : Int) * 1000000⟩ =
      pyFmt02 (h : Int) ++ ":" ++ pyFmt02 (m : Int) := by
  simp only [format_duration_for_schtasks]
  have h0 : (0 : Int) ≤ ((3600 * h + 60 * m : Nat) : Int) * 1000000 := by positivity
  rw [Int.tdiv_eq_ediv h0 (by omega)]
  have e1 : ((3600 * h + 60 * m : Nat) : Int) * 1000000 / 1000000 =
      ((3600 * h + 60 * m : Nat) : Int) := by omega
  rw [e1, Int.fmod_eq_emod _ (by omega), Int.fdiv_eq_ediv _ (by omega),
    Int.fdiv_eq_ediv _ (by omega)]
  have e2 : ((3600 * h + 60 * m : Nat) : Int) / 3600 = (h : Int) := by omega
  have e3 : ((3600 * h + 60 * m : Nat) : Int) % 3600 / 60 = (m : Int) := by omega
  rw [e2, e3]

/-- C4: for every duration of the form PT{h}H{m}M with 0 ≤ h and 0 ≤ m < 60,
    parsing and then formatting yields "{h:02}:{m:02}", integer-truncated at
    the seconds boundary, with the hours field zero-padded to two digits yet
    unbounded above 24: "PT3H" gives "03:00", "PT90M" gives "01:30", and the
    30-hour "PT30H" gives "30:00". -/
theorem claim4_duration_format :
    (∀ h m : Nat, m < 60 →
      (parse_iso_duration (String.mk
          ('P' :: 'T' :: (natDigits h ++ 'H' :: (natDigits m ++ ['M']))))).map
        format_duration_for_schtasks =
        .ok (pyFmt02 (h : Int) ++ ":" ++ pyFmt02 (m : Int))) ∧
    (parse_iso_duration "PT3H").map format_duration_for_schtasks = .ok "03:00" ∧
    (parse_iso_duration "PT90M").map format_duration_for_schtasks = .ok "01:30" ∧
    (parse_iso_duration "PT30H").map format_duration_for_schtasks = .ok "30:00" := by
  refine ⟨fun h m hm => ?_, by decide, by decide, by decide⟩
  simp only [parse_iso_duration, parse_duration_lib_hm h m, Except.map]
  rw [format_hm h m hm]

/-- Witness for C4 at h equal 2 and m equal 30. -/
theorem claim4_duration_format_witness :
    (parse_iso_duration (String.mk
        ('P' :: 'T' :: (natDigits 2 ++ 'H' :: (natDigits 30 ++ ['M']))))).map
      format_duration_for_schtasks =
      .ok (pyFmt02 ((2 : Nat) : Int) ++ ":" ++ pyFmt02 ((30 : Nat) : Int)) :=
  claim4_duration_format.1 2 30 (by decide)

/-- Auxiliary: the data of an appended string is the appended data. -/
theorem strDataAppend (a b : String) : (a ++ b).data = a.data ++ b.data := by
  cases a; cases b; rfl

/-- Auxiliary: strings with the same data are equal. -/
theorem strExt (a b : String) (h : a.data = b.data) : a = b := by
  cases a; cases b; cases h; rfl

/-- Auxiliary: a list starts with itself followed by anything. -/
theorem listHasPref_self_append (t b : List Char) : listHasPref t (t ++ b) = true := by
  induction t with
  | nil => rfl
  | cons c t2 ih => simp [listHasPref, ih]

/-- Auxiliary: a prefix occurrence is an occurrence. -/
theorem listHasSub_of_pref (t l : List Char) (h : listHasPref t l = true) :
    listHasSub t l = true := by
  cases l with
  | nil =>
    cases t with
    | nil => rfl
    | cons c t2 => simp [listHasPref] at h
  | cons x l2 => simp [listHasSub, h]

/-- Auxiliary: a contiguously embedded list is found. -/
theorem listHasSub_embed (t : List Char) : ∀ a b : List Char,
    listHasSub t (a ++ t ++ b) = true := by
  intro a
  induction a with
  | nil =>
    intro b
    simp only [List.nil_append]
    exact listHasSub_of_pref t (t ++ b) (listHasPref_self_append t b)
  | cons x a2 ih =>
    intro b
    simp only [List.cons_append, listHasSub, Bool.or_eq_true]
    exact Or.inr (by simpa using ih b)

/-- Auxiliary: containment of a contiguously embedded string. -/
theorem strContains_embed (t a b : String) : strContains t (a ++ t ++ b) = true := by
  unfold strContains
  rw [strDataAppend, strDataAppend]
  exact listHasSub_embed t.data a.data b.data

/-- Auxiliary: a prefix occurrence cannot extend past a character that the
    occurring list does not hold. -/
theorem prefStop (t : List Char) : ∀ (a b : List Char) (c : Char), c ∉ t →
    listHasPref t (a ++ c :: b) = true → listHasPref t a = true := by
  induction t with
  | nil => intro a b c hc hp; rfl
  | cons y t2 ih =>
    intro a b c hc hp
    cases a with
    | nil =>
      simp only [List.nil_append, listHasPref, Bool.and_eq_true,
        decide_eq_true_eq] at hp
      have hmem : c ∈ y :: t2 := by rw [← hp.1]; exact List.mem_cons_self y t2
      exact absurd hmem hc
    | cons x a2 =>
      simp only [List.cons_append, listHasPref, Bool.and_eq_true] at hp ⊢
      have hc2 : c ∉ t2 := fun hmem => hc (List.mem_cons_of_mem y hmem)
      exact ⟨hp.1, ih a2 b c hc2 hp.2⟩

/-- Auxiliary: an occurrence cannot straddle a separator character that the
    occurring list does not hold. -/
theorem subStop (t : List Char) (hne : t ≠ []) : ∀ (a b : List Char) (c : Char),
    c ∉ t → listHasSub t (a ++ c :: b) = true →
    listHasSub t a = true ∨ listHasSub t b = true := by
  intro a
  induction a with
  | nil =>
    intro b c hc hs
    right
    cases t with
    | nil => exact absurd rfl hne
    | cons y t2 =>
      simp only [List.nil_append, listHasSub, Bool.or_eq_true] at hs
      rcases hs with hp | hs2
      · simp only [listHasPref, Bool.and_eq_true, decide_eq_true_eq] at hp
        have hmem : c ∈ y :: t2 := by rw [← hp.1]; exact List.mem_cons_self y t2
        exact absurd hmem hc
      · exact hs2
  | cons x a2 ih =>
    intro b c hc hs
    simp only [List.cons_append, listHasSub, Bool.or_eq_true] at hs
    rcases hs with hp | hs2
    · left
      exact listHasSub_of_pref t (x :: a2)
        (prefStop t (x :: a2) b c hc (by simpa using hp))
    · rcases ih b c hc hs2 with h | h
      · left; simp [listHasSub, h]
      · right; exact h

/-- Auxiliary: the success notice holds no apostrophe, colon or newline, so
    it cannot occur in the failure message unless it already occurs in the
    task name or in the tool's stderr. -/
theorem successNotice_not_in_failure (n st : List Char)
    (hn : listHasSub successNotice.data n = false)
    (hs : listHasSub successNotice.data st = false) :
    listHasSub successNotice.data
      ("Error scheduling task '".data ++ n ++ "':\n".data ++ st) = false := by
  by_contra hx
  rw [Bool.not_eq_false] at hx
  have hne : successNotice.data ≠ [] := by decide
  have hq : ('\'' : Char) ∉ successNotice.data := by decide
  have hcol : (':' : Char) ∉ successNotice.data := by decide
  have hnl : ('\n' : Char) ∉ successNotice.data := by decide
  have hshape : "Error scheduling task '".data ++ n ++ "':\n".data ++ st =
      "Error scheduling task ".data ++ '\'' :: (n ++ '\'' :: ':' :: '\n' :: st) := by
    have e1 : "Error scheduling task '".data =
        "Error scheduling task ".data ++ ['\''] := rfl
    rw [e1]
    simp [List.append_assoc]
  rw [hshape] at hx
  rcases subStop successNotice.data hne _ _ '\'' hq hx with h1 | h2
  · exact absurd h1 (by decide)
  · rcases subStop successNotice.data hne n _ '\'' hq h2 with h3 | h4
    · exact absurd h3 (by simp [hn])
    · rcases subStop successNotice.data hne [] ('\n' :: st) ':' hcol
        (by simpa using h4) with h5 | h6
      · exact absurd h5 (by decide)
      · rcases subStop successNotice.data hne [] st '\n' hnl
          (by simpa using h6) with h7 | h8
        · exact absurd h7 (by decide)
        · exact absurd h8 (by simp [hs])

/-- C7: once the creation command is dispatched, a zero exit yields the
    success message made of the literal success notice and the tool's own
    stdout, while a non-zero exit yields the failure message made of the
    literal failure notice and the tool's stderr; the failure message holds
    the failure notice and the stderr text, and holds no success notice
    provided the task name and the stderr do not themselves hold that text;
    both outcomes are returned messages, never structured errors. -/
theorem claim7_create_outcome_messages (e : Env) (n cp du : String) (i : Int)
    (td : Timedelta) (r : ProcResult)
    (hq : get_existing_task_details e.queryOutcome = .ok none)
    (hp : parse_iso_duration du = .ok td)
    (hc : e.createOutcome = .completed r) :
    (r.exitCode = 0 →
      (schedule_task e n cp i du).result =
        .ok ("Task '" ++ n ++ "' scheduled successfully.\n" ++ r.stdout)) ∧
    (r.exitCode ≠ 0 →
      (schedule_task e n cp i du).result =
        .ok ("Error scheduling task '" ++ n ++ "':\n" ++ r.stderr) ∧
      strContains failureNotice
        ("Error scheduling task '" ++ n ++ "':\n" ++ r.stderr) = true ∧
      strContains r.stderr
        ("Error scheduling task '" ++ n ++ "':\n" ++ r.stderr) = true ∧
      (strContains successNotice n = false →
        strContains successNotice r.stderr = false →
        strContains successNotice
          ("Error scheduling task '" ++ n ++ "':\n" ++ r.stderr) = false)) := by
  constructor
  · intro h0
    simp only [schedule_task, hq, hp, hc]
    rw [if_pos h0]
  · intro h0
    refine ⟨?_, ?_, ?_, fun hn hs => ?_⟩
    · simp only [schedule_task, hq, hp, hc]
      rw [if_neg h0]
    · have hmsg : ("Error scheduling task '" ++ n ++ "':\n" ++ r.stderr) =
          "" ++ failureNotice ++ (" '" ++ (n ++ ("':\n" ++ r.stderr))) :=
        strExt _ _ (by simp [strDataAppend, failureNotice])
      rw [hmsg]
      exact strContains_embed failureNotice "" (" '" ++ (n ++ ("':\n" ++ r.stderr)))
    · have hmsg : ("Error scheduling task '" ++ n ++ "':\n" ++ r.stderr) =
          ("Error scheduling task '" ++ n ++ "':\n") ++ r.stderr ++ "" :=
        strExt _ _ (by simp [strDataAppend])
      rw [hmsg]
      exact strContains_embed r.stderr ("Error scheduling task '" ++ n ++ "':\n") ""
    · show listHasSub successNotice.data _ = false
      have hgoal := successNotice_not_in_failure n.data r.stderr.data hn hs
      simpa [strDataAppend] using hgoal

/-- Witness for C7 at the concrete success and failure environments. -/
theorem claim7_create_outcome_messages_witness :
    (schedule_task envAbsentOk "Backup" "C:\\b.bat" 30 "PT3H").result =
      .ok ("Task '" ++ "Backup" ++ "' scheduled successfully.\n" ++
        "SUCCESS: the task has been created.") ∧
    (schedule_task envAbsentFail "Backup" "C:\\b.bat" 30 "PT3H").result =
      .ok ("Error scheduling task '" ++ "Backup" ++ "':\n" ++
        "ERROR: Access is denied.") ∧
    strContains successNotice
      ("Error scheduling task '" ++ "Backup" ++ "':\n" ++
        "ERROR: Access is denied.") = false := by
  have hok := claim7_create_outcome_messages envAbsentOk "Backup" "C:\\b.bat" "PT3H" 30
    ⟨10800000000⟩ ⟨0, "SUCCESS: the task has been created.", ""⟩ rfl rfl rfl
  have hfail := claim7_create_outcome_messages envAbsentFail "Backup" "C:\\b.bat" "PT3H" 30
    ⟨10800000000⟩ ⟨1, "", "ERROR: Access is denied."⟩ rfl rfl rfl
  obtain ⟨hr, -, -, hnot⟩ := hfail.2 (by decide)
  exact ⟨hok.1 rfl, hr, hnot (by decide) (by decide)⟩
